import Mathlib

/-!
# Verification of the twilio-ivr route compiler and session store

Shallow embedding of the two source files of the repository:

* `src/lib/index.ts` — the startup "compile phase" that walks the declared
  state sequence and registers POST routes (the Route Compiler and the two
  per-request handlers it installs), and
* `src/build/lib/session/store.js` — the `SequelizeStore` session-store
  adapter with `get` / `set` / `destroy`.

Asynchronous results (promises) are embedded as `Except String α`
(resolved / rejected); the Sequelize-backed database table is embedded as a
`List SessionRecord` of rows, with `findOne`/`upsert`/`destroy` translated to
the corresponding list operations on the `callSid` column.

Parts of the repository referenced by `src/lib/index.ts` but not present
under `src/` (the `./state` classifier module, the `renderState` /
`getSessionData` helpers of `./util/routeCreationHelpers`, and the session
middleware of `./session`) are modelled from the specification; each such
definition carries a doc comment saying so.
-/

set_option autoImplicit false

namespace TwilioIvr

/-- A persisted session record: the call identifier column `callSid` (the
table's unique key, which `SequelizeStore.set` upserts on) plus the
flow-specific session fields, embedded as an association list. -/
structure SessionRecord where
  callSid : String
  data : List (String × String)
deriving DecidableEq, Repr

namespace SequelizeStore

/-- Embedding of `this.callModel.findOne({where: {callSid: callSid}})`
followed by `call ? call.get({plain: true}) : undefined`
(src/build/lib/session/store.js lines 7–15): the first row whose `callSid`
column equals the argument, or `none` for absence. The `include`d `userCall`
association only adds store metadata to the returned plain object and is not
represented. -/
def get (db : List SessionRecord) (callSid : String) : Option SessionRecord :=
  db.find? (fun r => r.callSid == callSid)

/-- One step of `upsert`: replace the first row whose `callSid` equals the new
value's `callSid`, or append the value as a fresh row if no row matches. -/
def upsertRow : List SessionRecord → SessionRecord → List SessionRecord
  | [], v => [v]
  | r :: rest, v =>
      if r.callSid == v.callSid then v :: rest else r :: upsertRow rest v

/-- Embedding of `SequelizeStore.set` (src/build/lib/session/store.js lines
16–19): `this.callModel.upsert(value).then(created => created ? "created" :
"updated")`. The row is keyed by the `callSid` field *inside* `value`; the
`callSid` argument of `set` is not used by the body. Returns the
created/updated report together with the new table state. -/
def set (db : List SessionRecord) (callSid : String) (value : SessionRecord) :
    String × List SessionRecord :=
  (if db.any (fun r => r.callSid == value.callSid) then "updated" else "created",
   upsertRow db value)

/-- Embedding of `SequelizeStore.destroy` (src/build/lib/session/store.js
lines 20–24): `this.callModel.destroy({where: {callSid: callSid}}).then(
deletedCount => deletedCount > 0)`. Returns whether any row was deleted,
together with the new table state. -/
def destroy (db : List SessionRecord) (callSid : String) :
    Bool × List SessionRecord :=
  (db.countP (fun r => r.callSid == callSid) > 0,
   db.filter (fun r => !(r.callSid == callSid)))

end SequelizeStore

/-- A concrete record whose embedded call identifier is `"CA2"`, used to
exercise the store with a mismatched key argument. -/
def mismatchedRecord : SessionRecord :=
  { callSid := "CA2", data := [("step", "1")] }

/-- A candidate interaction state, as consumed by the route compiler of
src/lib/index.ts. The structural attributes mirror the fields the compiler
and the spec's data model (§3) inspect:

* `name` — the state's name attribute, absent for malformed candidates;
* `stringRep` — the value of the JavaScript string conversion
  `String(thisState)` of the object (line 95 of src/lib/index.ts);
* `uri` — the direct-invocation path, when declared;
* `twimlFor` — whether the rendering operation is present on the object;
* `processTransitionUri` — the transition-continuation path, when declared;
* `transitionOut` — the transition operation, when present: from session
  data and the parsed request body, an asynchronous (possibly rejecting)
  computation of (updated session, next state).

The type is an inductive rather than a structure because `transitionOut`
returns a next `CandidateState`. -/
inductive CandidateState : Type where
  | mk
      (name : Option String)
      (stringRep : String)
      (uri : Option String)
      (twimlFor : Bool)
      (processTransitionUri : Option String)
      (transitionOut :
        Option (SessionRecord → List (String × String) →
          Except String (SessionRecord × CandidateState)))

/-- The `name` attribute of a candidate state. -/
def CandidateState.name : CandidateState → Option String
  | .mk n _ _ _ _ _ => n

/-- The JavaScript string conversion `String(thisState)` of the state. -/
def CandidateState.stringRep : CandidateState → String
  | .mk _ sr _ _ _ _ => sr

/-- The `uri` attribute of a candidate state. -/
def CandidateState.uri : CandidateState → Option String
  | .mk _ _ u _ _ _ => u

/-- Whether the rendering operation is present on the state. -/
def CandidateState.twimlFor : CandidateState → Bool
  | .mk _ _ _ t _ _ => t

/-- The `processTransitionUri` attribute of a candidate state. -/
def CandidateState.processTransitionUri : CandidateState → Option String
  | .mk _ _ _ _ p _ => p

/-- The `transitionOut` operation of a candidate state, when present. -/
def CandidateState.transitionOut : CandidateState →
    Option (SessionRecord → List (String × String) →
      Except String (SessionRecord × CandidateState))
  | .mk _ _ _ _ _ t => t

/-- Modelled from the spec: `StateTypes.isRoutableState` of the absent
`src/lib/state` module. Per §3, a Routable state "additionally exposes a
`uri` (string) and a rendering capability". -/
def isRoutableState (s : CandidateState) : Bool :=
  s.uri.isSome && s.twimlFor

/-- Modelled from the spec: `StateTypes.isNormalState` of the absent
`src/lib/state` module. Per §3, a Normal state "additionally exposes a
`processTransitionUri` (string) and a `transitionOut` operation". -/
def isNormalState (s : CandidateState) : Bool :=
  s.processTransitionUri.isSome && s.transitionOut.isSome

/-- Modelled from the spec: `StateTypes.isUsableState` of the absent
`src/lib/state` module. Per §4.1 and §8.1, a candidate is acceptable exactly
when it satisfies at least one of the capability classifications; a candidate
lacking both a `uri` and a `processTransitionUri`/transition operation fails
classification and must abort startup. -/
def isUsableState (s : CandidateState) : Bool :=
  isRoutableState s || isNormalState s

/-- Embedding of line 95 of src/lib/index.ts:
`(thisState && thisState.name) || String(thisState)`. In the typed embedding
the state itself is never `null`, so the expression reduces to the state's
`name` attribute when that attribute is JavaScript-truthy (present and
non-empty), and to `String(thisState)` otherwise. -/
def stateAsString (s : CandidateState) : String :=
  match s.name with
  | some n => if n == "" then s.stringRep else n
  | none => s.stringRep

/-- The two kinds of compiled route binding (spec §3, Route Binding):
direct invocation of a Routable state at its `uri`, or transition
continuation of a Normal state at its `processTransitionUri`. -/
inductive BindingKind : Type where
  | direct
  | transition
deriving DecidableEq, Repr

/-- A compiled route binding: the position `idx` of the originating state in
the declared sequence, the HTTP method (always `"POST"`), the bound path, the
state the handler closes over, and the binding kind. -/
structure Binding where
  idx : Nat
  method : String
  path : String
  state : CandidateState
  kind : BindingKind

/-- The bindings one declared state contributes, mirroring the two `if`
blocks of the `states.forEach` loop (src/lib/index.ts lines 99–121): a POST
binding at `uri` when the state is Routable, then a POST binding at
`processTransitionUri` when the state is Normal. -/
def stateBindings (i : Nat) (s : CandidateState) : List Binding :=
  (if isRoutableState s then
    [{ idx := i, method := "POST", path := s.uri.getD "",
       state := s, kind := .direct }]
   else []) ++
  (if isNormalState s then
    [{ idx := i, method := "POST", path := s.processTransitionUri.getD "",
       state := s, kind := .transition }]
   else [])

/-- Embedding of the `states.forEach` compile loop of src/lib/index.ts
(lines 93–122), processing the declared states in order starting at index
`i`. Each usable state contributes its bindings and compilation continues;
the first non-usable state raises `Error("Invalid state provided: " +
stateAsString)` (lines 94–97), which aborts the loop: no binding is
registered for it or for any later state, and the error is reported in the
second component. -/
def compileFrom : Nat → List CandidateState → List Binding × Option String
  | _, [] => ([], none)
  | i, s :: rest =>
      if isUsableState s then
        ((stateBindings i s ++ (compileFrom (i + 1) rest).1),
         (compileFrom (i + 1) rest).2)
      else
        ([], some ("Invalid state provided: " ++ stateAsString s))

/-- The whole compile phase over a declared state sequence: the registered
bindings and, when some state failed classification, the startup error. -/
def compileRoutes (states : List CandidateState) :
    List Binding × Option String :=
  compileFrom 0 states

/-- The per-request context the handlers see: the call identifier of the
webhook, the session loaded for it by the session middleware (what
`getSessionData(req)` returns), and the parsed POST body. -/
structure Request where
  callSid : String
  callSession : SessionRecord
  body : List (String × String)

/-- Modelled from the spec: the type of the `renderState` helper of the
absent `src/lib/util/routeCreationHelpers` module. Per §4.4, rendering takes
the state, the request context, session data, an asset-URL resolver (elided:
the handlers always pass the fixed `app.locals.furl`), and the raw input or
an explicit absence, and asynchronously produces a markup document (or
fails). The embedding keeps it abstract as a function parameter. -/
abbrev RenderFn : Type :=
  CandidateState → Request → SessionRecord →
    Option (List (String × String)) → Except String String

/-- A record of one invocation of the render helper: which state was
rendered, with which session data, and which raw input (or explicit
absence) was passed. -/
structure RenderCall where
  state : CandidateState
  session : SessionRecord
  rawInput : Option (List (String × String))

/-- The observable outcome of a request handler: a response was sent
(`res.send(twiml)`), the error continuation was invoked (`next(err)`), or
neither happened. -/
inductive Outcome : Type where
  | sent (twiml : String)
  | nextCalled (err : String)
  | noResponse
deriving DecidableEq, Repr

/-- What running one handler produced: the outcome, the session table after
the request, and the render invocations it performed. -/
structure HandlerResult where
  outcome : Outcome
  store : List SessionRecord
  renderCalls : List RenderCall

/-- Embedding of the direct-invocation handler registered for a Routable
state (src/lib/index.ts lines 100–104):
`renderState(thisState, req, getSessionData(req), app.locals.furl, req.body)`
then `res.send(twiml)` on resolution, `next` on rejection. The raw request
body is passed to the render helper; the session table is not written. -/
def directHandler (s : CandidateState) (renderState : RenderFn)
    (req : Request) (db : List SessionRecord) : HandlerResult :=
  match renderState s req req.callSession (some req.body) with
  | .ok twiml =>
      { outcome := .sent twiml, store := db,
        renderCalls := [⟨s, req.callSession, some req.body⟩] }
  | .error e =>
      { outcome := .nextCalled e, store := db,
        renderCalls := [⟨s, req.callSession, some req.body⟩] }

/-- Embedding of the transition-continuation handler registered for a Normal
state (src/lib/index.ts lines 108–120). The source attaches only a
fulfillment callback to `thisState.transitionOut(getSessionData(req),
req.body)` (line 115: `.then(([updatedSession, resultState]) => …)` with no
rejection handler), so a rejected transition leaves the request with no
response and `next` never invoked; that is embedded as the `.error`
branch producing `Outcome.noResponse`. On success the result state is
rendered with the updated session and an explicitly absent raw input
(`undefined` at line 116), with render rejection going to `next`.

Modelled from the spec: the persistence of the updated session. The session
middleware of the absent `src/lib/session` module persists the updated
session around the response; per §4.5 ("render(nextState, …) → persist
updatedSession → send response", with persistence racing the send) the
embedding performs `SequelizeStore.set` with the request's call identifier
before reporting the sent outcome. -/
def transitionContinuationHandler (s : CandidateState)
    (renderState : RenderFn) (req : Request) (db : List SessionRecord) :
    HandlerResult :=
  match s.transitionOut with
  | none => { outcome := .noResponse, store := db, renderCalls := [] }
  | some transition =>
      match transition req.callSession req.body with
      | .error _ => { outcome := .noResponse, store := db, renderCalls := [] }
      | .ok (updatedSession, resultState) =>
          match renderState resultState req updatedSession none with
          | .error e =>
              { outcome := .nextCalled e, store := db,
                renderCalls := [⟨resultState, updatedSession, none⟩] }
          | .ok twiml =>
              { outcome := .sent twiml,
                store := (SequelizeStore.set db req.callSid updatedSession).2,
                renderCalls := [⟨resultState, updatedSession, none⟩] }

/-- A Routable-only demo state at `/b`. -/
def bState : CandidateState :=
  .mk (some "B") "[object Object]" (some "/b") true none none

/-- A demo transition operation: sets the `step` field to `"1"` and moves to
`bState`. -/
def aTransition (sd : SessionRecord) (_input : List (String × String)) :
    Except String (SessionRecord × CandidateState) :=
  .ok ({ sd with data := [("step", "1")] }, bState)

/-- A demo state that is both Routable (at `/a`) and Normal (at `/a/next`,
transitioning via `aTransition`). -/
def aState : CandidateState :=
  .mk (some "A") "[object Object]" (some "/a") true (some "/a/next")
    (some aTransition)

/-- A named demo state that satisfies no classification: no `uri`, no
rendering operation, no `processTransitionUri`, no transition operation. -/
def badState : CandidateState :=
  .mk (some "Bad") "[object Object]" none false none none

/-- A nameless demo state that satisfies no classification. -/
def namelessBadState : CandidateState :=
  .mk none "[object Object]" none false none none

/-- A demo state that is both Routable and Normal and declares the SAME path
`/x` as both its `uri` and its `processTransitionUri`. -/
def samePathState : CandidateState :=
  .mk (some "S") "[object Object]" (some "/x") true (some "/x")
    (some aTransition)

/-- A Normal demo state whose transition operation always rejects. -/
def failingTransitionState : CandidateState :=
  .mk (some "F") "[object Object]" none false (some "/f/next")
    (some (fun _ _ => .error "transition failed"))

/-- A demo request for call `"CA1"` with loaded session `{step: "0"}` and
body `{choice: "1"}`. -/
def demoRequest : Request :=
  { callSid := "CA1",
    callSession := ⟨"CA1", [("step", "0")]⟩,
    body := [("choice", "1")] }

/-- A demo render helper that always succeeds with a fixed document. -/
def okRender : RenderFn := fun _ _ _ _ => .ok "twiml-doc"

/-!
## Theorems

Helper lemmas first, then one theorem (with its witness or counterexample)
per specification claim.
-/

/-- After upserting `v`, looking the table up by `v.callSid` finds exactly
`v`: the upsert either replaced the first matching row or appended `v` to a
table with no matching row. -/
theorem find_upsertRow_self (db : List SessionRecord) (v : SessionRecord) :
    (SequelizeStore.upsertRow db v).find? (fun r => r.callSid == v.callSid) =
      some v := by
  induction db with
  | nil => simp [SequelizeStore.upsertRow, List.find?]
  | cons r rest ih =>
      by_cases h : r.callSid = v.callSid
      · simp [SequelizeStore.upsertRow, h, List.find?]
      · have hb : (r.callSid == v.callSid) = false := by simp [h]
        simp [SequelizeStore.upsertRow, hb, List.find?, ih]

/-- Round-trip helper shared by the store theorems and the orchestrator
proofs: when the call identifier stored inside the record matches the key
used for the lookup, `set` followed by `get` round-trips. -/
theorem get_after_set (db : List SessionRecord) (k : String)
    (v : SessionRecord) (h : v.callSid = k) :
    SequelizeStore.get (SequelizeStore.set db k v).2 k = some v := by
  unfold SequelizeStore.get SequelizeStore.set
  simpa [h] using find_upsertRow_self db v

/-- Every binding a state contributes carries that state, the state's index,
and the POST method. -/
theorem mem_stateBindings {i : Nat} {s : CandidateState} {b : Binding}
    (hb : b ∈ stateBindings i s) :
    b.state = s ∧ b.idx = i ∧ b.method = "POST" := by
  unfold stateBindings at hb
  rcases List.mem_append.mp hb with h | h
  · cases hr : isRoutableState s with
    | false => simp [hr] at h
    | true =>
        simp [hr] at h
        subst h
        exact ⟨rfl, rfl, rfl⟩
  · cases hn : isNormalState s with
    | false => simp [hn] at h
    | true =>
        simp [hn] at h
        subst h
        exact ⟨rfl, rfl, rfl⟩

/-- Every binding the compile loop registers comes from a usable state, sits
at an index between the starting index and the end of the sequence, and is a
POST binding. -/
theorem compileFrom_mem (i : Nat) (ss : List CandidateState) (b : Binding)
    (hb : b ∈ (compileFrom i ss).1) :
    isUsableState b.state = true ∧ i ≤ b.idx ∧ b.idx < i + ss.length ∧
      b.method = "POST" := by
  induction ss generalizing i with
  | nil => simp [compileFrom] at hb
  | cons s rest ih =>
      cases hu : isUsableState s with
      | false => simp [compileFrom, hu] at hb
      | true =>
          simp only [compileFrom, hu, if_true] at hb
          rcases List.mem_append.mp hb with h | h
          · obtain ⟨hstate, hidx, hmethod⟩ := mem_stateBindings h
            refine ⟨?_, ?_, ?_, hmethod⟩
            · rw [hstate]; exact hu
            · omega
            · simp only [List.length_cons]; omega
          · obtain ⟨h1, h2, h3, h4⟩ := ih i.succ h
            refine ⟨h1, by omega, ?_, h4⟩
            simp only [List.length_cons]
            omega

/-- When every declared state is usable, the compile loop reports no
startup error. -/
theorem compileFrom_err_none (i : Nat) (ss : List CandidateState)
    (h : ∀ s ∈ ss, isUsableState s = true) :
    (compileFrom i ss).2 = none := by
  induction ss generalizing i with
  | nil => rfl
  | cons s rest ih =>
      have hu : isUsableState s = true := h s (List.mem_cons_self s rest)
      simp only [compileFrom, hu, if_true]
      exact ih i.succ (fun t ht => h t (List.mem_cons_of_mem s ht))

/-- When some state of the sequence is not usable, the compile loop reports
a startup error. -/
theorem compileFrom_err_of_mem_bad (i : Nat) (ss : List CandidateState)
    (s : CandidateState) (hmem : s ∈ ss)
    (hbad : isUsableState s = false) :
    (compileFrom i ss).2.isSome = true := by
  induction ss generalizing i with
  | nil => simp at hmem
  | cons t rest ih =>
      rcases List.mem_cons.mp hmem with heq | hmem2
      · subst heq
        simp [compileFrom, hbad]
      · cases hu : isUsableState t with
        | false => simp [compileFrom, hu]
        | true =>
            simp only [compileFrom, hu, if_true]
            exact ih i.succ hmem2

/-- The bindings the compile loop registers at declared index `i + j` are
exactly the bindings of the `j`-th remaining state. -/
theorem compileFrom_filter (ss : List CandidateState) (i j : Nat)
    (h : ∀ s ∈ ss, isUsableState s = true) (hj : j < ss.length) :
    (compileFrom i ss).1.filter (fun b => b.idx == i + j) =
      stateBindings (i + j) (ss.get ⟨j, hj⟩) := by
  induction ss generalizing i j with
  | nil => simp at hj
  | cons s rest ih =>
      have hu : isUsableState s = true := h s (List.mem_cons_self s rest)
      simp only [compileFrom, hu, if_true]
      rw [List.filter_append]
      cases j with
      | zero =>
          have h1 : (stateBindings i s).filter
              (fun b => b.idx == i + 0) = stateBindings i s := by
            apply List.filter_eq_self.mpr
            intro b hb
            have hidx := (mem_stateBindings hb).2.1
            simp [hidx]
          have h2 : ((compileFrom (i + 1) rest).1).filter
              (fun b => b.idx == i + 0) = [] := by
            apply List.filter_eq_nil_iff.mpr
            intro b hb
            have hge := (compileFrom_mem (i + 1) rest b hb).2.1
            simp only [beq_iff_eq]
            omega
          rw [h1, h2]
          simp
      | succ j2 =>
          have h1 : (stateBindings i s).filter
              (fun b => b.idx == i + (j2 + 1)) = [] := by
            apply List.filter_eq_nil_iff.mpr
            intro b hb
            have hidx := (mem_stateBindings hb).2.1
            simp only [beq_iff_eq]
            omega
          rw [h1, List.nil_append]
          have hj2 : j2 < rest.length := by
            simpa using Nat.lt_of_succ_lt_succ hj
          have hrec := ih (i + 1) j2
            (fun t ht => h t (List.mem_cons_of_mem s ht)) hj2
          have heq : i + (j2 + 1) = (i + 1) + j2 := by omega
          rw [heq]
          simpa using hrec

/-- The compile loop's error for a sequence whose first non-usable state is
`s` carries the message `"Invalid state provided: " ++ stateAsString s`. -/
theorem compileFrom_err_first_bad (i : Nat)
    (pre post : List CandidateState) (s : CandidateState)
    (hpre : ∀ p ∈ pre, isUsableState p = true)
    (hbad : isUsableState s = false) :
    (compileFrom i (pre ++ s :: post)).2 =
      some ("Invalid state provided: " ++ stateAsString s) := by
  induction pre generalizing i with
  | nil => simp [compileFrom, hbad]
  | cons p rest ih =>
      have hu : isUsableState p = true := hpre p (List.mem_cons_self p rest)
      simp only [List.cons_append, compileFrom, hu, if_true]
      exact ih i.succ (fun t ht => hpre t (List.mem_cons_of_mem p ht))

/-- C1, counterexample: the state `samePathState` is both Routable and
Normal but declares `/x` as both its `uri` and its `processTransitionUri`;
compiling it succeeds and produces its two bindings with the SAME path
(differing only in kind), falsifying "exactly two distinct bindings (same
state, different paths and kinds)" at this input. -/
theorem both_kinds_same_path_counterexample :
    (compileRoutes [samePathState]).2 = none ∧
      (compileRoutes [samePathState]).1.map (fun b => (b.path, b.kind)) =
        [("/x", BindingKind.direct), ("/x", BindingKind.transition)] :=
  ⟨rfl, rfl⟩

/-- C1 (amended): compiling a sequence of usable states reports no error;
every registered binding is a POST binding of some declared state (no other
bindings are produced); and the bindings registered for the state at
position `j` are exactly `stateBindings j`: one direct POST binding at its
`uri` when it is Routable, plus one transition POST binding at its
`processTransitionUri` when it is Normal — two bindings differing in kind
when it is both, whose paths coincide exactly when the state declares the
same `uri` and `processTransitionUri` (the compiler does not force the two
paths to differ). -/
theorem compile_bindings_per_state (states : List CandidateState)
    (h : ∀ s ∈ states, isUsableState s = true) :
    (compileRoutes states).2 = none ∧
      (∀ b ∈ (compileRoutes states).1,
        b.idx < states.length ∧ b.method = "POST") ∧
      ∀ j (hj : j < states.length),
        (compileRoutes states).1.filter (fun b => b.idx == j) =
          stateBindings j (states.get ⟨j, hj⟩) := by
  refine ⟨compileFrom_err_none 0 states h, ?_, ?_⟩
  · intro b hb
    have hm := compileFrom_mem 0 states b hb
    exact ⟨by omega, hm.2.2.2⟩
  · intro j hj
    have hf := compileFrom_filter states 0 j h hj
    simpa using hf

/-- Witness for the amended C1 at the concrete sequence `[aState]`, whose
single state is both Routable and Normal. -/
theorem compile_bindings_per_state_witness :
    (∀ s ∈ [aState], isUsableState s = true) ∧
      (compileRoutes [aState]).1.filter (fun b => b.idx == 0) =
        stateBindings 0 ([aState].get ⟨0, Nat.zero_lt_one⟩) :=
  ⟨by decide,
    (compile_bindings_per_state [aState] (by decide)).2.2 0 Nat.zero_lt_one⟩

/-- C3: a declared state that satisfies no classification makes the compile
phase abort with a startup error, and no binding registered by the compile
phase is a binding for that state. -/
theorem unusable_state_aborts_with_no_binding
    (states : List CandidateState) (s : CandidateState)
    (hmem : s ∈ states) (hbad : isUsableState s = false) :
    (compileRoutes states).2.isSome = true ∧
      ∀ b ∈ (compileRoutes states).1, b.state ≠ s := by
  constructor
  · exact compileFrom_err_of_mem_bad 0 states s hmem hbad
  · intro b hb heq
    have husable := (compileFrom_mem 0 states b hb).1
    rw [heq, hbad] at husable
    exact Bool.false_ne_true husable

/-- Witness for C3 at the concrete sequence `[bState, badState]`. -/
theorem unusable_state_aborts_with_no_binding_witness :
    badState ∈ [bState, badState] ∧ isUsableState badState = false ∧
      ((compileRoutes [bState, badState]).2.isSome = true ∧
        ∀ b ∈ (compileRoutes [bState, badState]).1, b.state ≠ badState) :=
  ⟨by simp, rfl,
    unusable_state_aborts_with_no_binding [bState, badState] badState
      (by simp) rfl⟩

/-- C5: when the first state of the declared sequence that fails every
classification is `s`, the startup abort's error message is
`"Invalid state provided: "` followed by `stateAsString s`, which is the
state's `name` whenever a (JavaScript-truthy, i.e. non-empty) name is
available and the state's string representation otherwise. -/
theorem compile_error_identifies_offending_state
    (pre post : List CandidateState) (s : CandidateState)
    (hpre : ∀ p ∈ pre, isUsableState p = true)
    (hbad : isUsableState s = false) :
    (compileRoutes (pre ++ s :: post)).2 =
        some ("Invalid state provided: " ++ stateAsString s) ∧
      (∀ n : String, s.name = some n → n ≠ "" → stateAsString s = n) ∧
      ((s.name = none ∨ s.name = some "") →
        stateAsString s = s.stringRep) := by
  refine ⟨compileFrom_err_first_bad 0 pre post s hpre hbad, ?_, ?_⟩
  · intro n hn hne
    unfold stateAsString
    rw [hn]
    simp [hne]
  · intro hcase
    unfold stateAsString
    rcases hcase with hnone | hempty
    · rw [hnone]
    · rw [hempty]
      simp

/-- Witness for C5 at the concrete sequence `[bState, namelessBadState]`,
whose offending state has no name. -/
theorem compile_error_identifies_offending_state_witness :
    (∀ p ∈ [bState], isUsableState p = true) ∧
      isUsableState namelessBadState = false ∧
      ((compileRoutes ([bState] ++ namelessBadState :: [])).2 =
          some ("Invalid state provided: " ++
            stateAsString namelessBadState) ∧
        (∀ n : String, namelessBadState.name = some n → n ≠ "" →
          stateAsString namelessBadState = n) ∧
        ((namelessBadState.name = none ∨
            namelessBadState.name = some "") →
          stateAsString namelessBadState = namelessBadState.stringRep)) :=
  ⟨by decide, rfl,
    compile_error_identifies_offending_state [bState] [] namelessBadState
      (by decide) rfl⟩

/-- C2: when a Normal state's transition maps the loaded session and the
request body to an updated session (carrying the call's identifier) and a
next state, and rendering the next state with the updated session succeeds,
the transition-continuation handler sends the rendered document, its single
render call is of the next state with the updated session (and absent raw
input), and afterwards the session store holds the updated session under
the call identifier. -/
theorem transition_success_renders_and_persists
    (s : CandidateState)
    (transition : SessionRecord → List (String × String) →
      Except String (SessionRecord × CandidateState))
    (renderState : RenderFn) (req : Request) (db : List SessionRecord)
    (updatedSession : SessionRecord) (nextState : CandidateState)
    (twiml : String)
    (hT : s.transitionOut = some transition)
    (hstep : transition req.callSession req.body =
      Except.ok (updatedSession, nextState))
    (hsid : updatedSession.callSid = req.callSid)
    (hrender : renderState nextState req updatedSession none =
      Except.ok twiml) :
    (transitionContinuationHandler s renderState req db).outcome =
        Outcome.sent twiml ∧
      (transitionContinuationHandler s renderState req db).renderCalls =
        [⟨nextState, updatedSession, none⟩] ∧
      SequelizeStore.get
          (transitionContinuationHandler s renderState req db).store
          req.callSid = some updatedSession := by
  refine ⟨?_, ?_, ?_⟩ <;>
    simp only [transitionContinuationHandler, hT, hstep, hrender]
  exact get_after_set db req.callSid updatedSession hsid

/-- Witness for C2 at the concrete flow of spec §8.6: a `POST /a/next`
request with body `{choice: "1"}` against session `{step: "0"}`, which
`aState`'s transition maps to (`{step: "1"}`, `bState`). -/
theorem transition_success_renders_and_persists_witness :
    aState.transitionOut = some aTransition ∧
      aTransition demoRequest.callSession demoRequest.body =
        Except.ok (SessionRecord.mk "CA1" [("step", "1")], bState) ∧
      (SessionRecord.mk "CA1" [("step", "1")]).callSid =
        demoRequest.callSid ∧
      okRender bState demoRequest (SessionRecord.mk "CA1" [("step", "1")])
          none = Except.ok "twiml-doc" ∧
      ((transitionContinuationHandler aState okRender demoRequest
            []).outcome = Outcome.sent "twiml-doc" ∧
        (transitionContinuationHandler aState okRender demoRequest
            []).renderCalls =
          [⟨bState, SessionRecord.mk "CA1" [("step", "1")], none⟩] ∧
        SequelizeStore.get
            (transitionContinuationHandler aState okRender demoRequest
              []).store demoRequest.callSid =
          some (SessionRecord.mk "CA1" [("step", "1")])) :=
  ⟨rfl, rfl, rfl, rfl,
    transition_success_renders_and_persists aState aTransition okRender
      demoRequest [] (SessionRecord.mk "CA1" [("step", "1")]) bState
      "twiml-doc" rfl rfl rfl rfl⟩

/-- C4: on a transition-continuation route whose transition rejects, the
handler produces no response at all — `next` is never invoked (nor is any
document sent or any render performed), because the source attaches no
rejection handler to the transition promise (src/lib/index.ts line 115).
This contradicts the claimed propagation to the handler's `next`
continuation; evaluated here at a concrete rejecting transition. -/
theorem transition_rejection_dropped :
    (transitionContinuationHandler failingTransitionState okRender
        demoRequest []).outcome = Outcome.noResponse ∧
      (transitionContinuationHandler failingTransitionState okRender
        demoRequest []).renderCalls = [] ∧
      (transitionContinuationHandler failingTransitionState okRender
        demoRequest []).store = [] :=
  ⟨rfl, rfl, rfl⟩

/-- C6: for every state, render helper, request and store, the
direct-invocation handler passes exactly the raw request body to its single
render call, while every render call of the transition-continuation handler
receives an explicitly absent raw input. -/
theorem raw_input_exactly_on_direct_routes (s : CandidateState)
    (renderState : RenderFn) (req : Request) (db : List SessionRecord) :
    (directHandler s renderState req db).renderCalls.map
        (fun c => c.rawInput) = [some req.body] ∧
      (transitionContinuationHandler s renderState req db).renderCalls.all
        (fun c => c.rawInput == none) = true := by
  constructor
  · unfold directHandler
    split <;> rfl
  · unfold transitionContinuationHandler
    split
    · rfl
    · split
      · rfl
      · split <;> rfl

/-- C7: the round-trip `set(k, v)` then `get(k)` does NOT return `v` for
every `k` and `v`: with `k = "CA1"` and a record `v` whose `callSid` field
is `"CA2"`, `get "CA1"` after `set "CA1" v` on an empty store returns
absence, because `set` keys the upsert by `v.callSid`, not by its `k`
argument. -/
theorem set_get_roundtrip_fails_on_mismatched_key :
    SequelizeStore.get
        (SequelizeStore.set [] "CA1" mismatchedRecord).2 "CA1" = none ∧
      (none : Option SessionRecord) ≠ some mismatchedRecord :=
  ⟨rfl, by decide⟩

/-- C7 (amended): `set(k, v)` followed immediately by `get(k)` returns a
record equal to `v` (modulo store-added metadata, which the embedding
omits) whenever the call identifier inside `v` equals the key `k`. -/
theorem set_get_roundtrip (db : List SessionRecord) (k : String)
    (v : SessionRecord) (h : v.callSid = k) :
    SequelizeStore.get (SequelizeStore.set db k v).2 k = some v :=
  get_after_set db k v h

/-- Witness for the amended C7 round-trip at a concrete store, key and
record. -/
theorem set_get_roundtrip_witness :
    (SessionRecord.mk "CA1" [("step", "1")]).callSid = "CA1" ∧
      SequelizeStore.get
          (SequelizeStore.set [SessionRecord.mk "CA9" []] "CA1"
            (SessionRecord.mk "CA1" [("step", "1")])).2 "CA1" =
        some (SessionRecord.mk "CA1" [("step", "1")]) :=
  ⟨rfl, set_get_roundtrip [SessionRecord.mk "CA9" []] "CA1"
    (SessionRecord.mk "CA1" [("step", "1")]) rfl⟩

/-- C8: `destroy` on a call identifier with no record returns `false` and
leaves the table unchanged; `destroy` on a call identifier with a record
returns `true`, and a subsequent `get` of that identifier returns
absence. -/
theorem destroy_spec (db : List SessionRecord) (k : String) :
    (SequelizeStore.get db k = none →
        SequelizeStore.destroy db k = (false, db)) ∧
      (SequelizeStore.get db k ≠ none →
        (SequelizeStore.destroy db k).1 = true ∧
          SequelizeStore.get (SequelizeStore.destroy db k).2 k = none) := by
  constructor
  · intro habsent
    have hall : ∀ r ∈ db, ¬((fun r : SessionRecord => r.callSid == k) r) := by
      exact List.find?_eq_none.mp habsent
    unfold SequelizeStore.destroy
    have hcount : db.countP (fun r => r.callSid == k) = 0 := by
      rw [List.countP_eq_zero]
      exact hall
    have hfilter : db.filter (fun r => !(r.callSid == k)) = db := by
      apply List.filter_eq_self.mpr
      intro r hr
      have := hall r hr
      simp_all
    rw [hcount, hfilter]
    rfl
  · intro hpresent
    constructor
    · obtain ⟨r, hfind⟩ := Option.ne_none_iff_exists.mp hpresent
      have hr : r ∈ db := List.mem_of_find?_eq_some hfind.symm
      have hp : (r.callSid == k) = true :=
        List.find?_some (p := fun r : SessionRecord => r.callSid == k)
          hfind.symm
      unfold SequelizeStore.destroy
      have hpos : 0 < db.countP (fun r => r.callSid == k) :=
        List.countP_pos_iff.mpr ⟨r, hr, hp⟩
      simpa using hpos
    · unfold SequelizeStore.get SequelizeStore.destroy
      rcases hfind : (db.filter
          (fun r => !(r.callSid == k))).find? (fun r => r.callSid == k) with
        _ | r
      · exact hfind
      · exfalso
        have hp : (r.callSid == k) = true :=
          List.find?_some (p := fun r : SessionRecord => r.callSid == k)
            hfind
        have hmem := List.mem_of_find?_eq_some hfind
        have hnp : (!(r.callSid == k)) = true := (List.mem_filter.mp hmem).2
        simp [hp] at hnp

/-- Witness for C8 at a concrete store: the two hypotheses are discharged
at a store that lacks `"CAx"` and holds `"CA1"`, respectively. -/
theorem destroy_spec_witness :
    (SequelizeStore.get [SessionRecord.mk "CA1" []] "CAx" = none ∧
        SequelizeStore.destroy [SessionRecord.mk "CA1" []] "CAx" =
          (false, [SessionRecord.mk "CA1" []])) ∧
      (SequelizeStore.get [SessionRecord.mk "CA1" []] "CA1" ≠ none ∧
        (SequelizeStore.destroy [SessionRecord.mk "CA1" []] "CA1").1 =
          true ∧
        SequelizeStore.get
          (SequelizeStore.destroy [SessionRecord.mk "CA1" []] "CA1").2
          "CA1" = none) :=
  ⟨⟨by decide,
      (destroy_spec [SessionRecord.mk "CA1" []] "CAx").1 (by decide)⟩,
    ⟨by decide,
      (destroy_spec [SessionRecord.mk "CA1" []] "CA1").2 (by decide)⟩⟩

/-- C10: `set` ignores its call-identifier argument entirely (its result
depends only on the table and the record), and consequently when the
record's embedded `callSid` differs from the key `k`, `set(k, v)` followed
by `get(k)` does not return `v`. -/
theorem set_ignores_key_argument (db : List SessionRecord) (k : String)
    (v : SessionRecord) :
    (∀ kOther : String,
        SequelizeStore.set db k v = SequelizeStore.set db kOther v) ∧
      (v.callSid ≠ k →
        SequelizeStore.get (SequelizeStore.set db k v).2 k ≠ some v) := by
  constructor
  · intro kOther
    rfl
  · intro hne hget
    have hp : (v.callSid == k) = true :=
      List.find?_some (p := fun r : SessionRecord => r.callSid == k) hget
    exact hne (by simpa using hp)

/-- Witness for C10 at a concrete store, key and record: the key `"CA1"`
differs from the record's `callSid` `"CA2"`, and the round-trip fails. -/
theorem set_ignores_key_argument_witness :
    (∀ kOther : String,
        SequelizeStore.set [] "CA1" (SessionRecord.mk "CA2" []) =
          SequelizeStore.set [] kOther (SessionRecord.mk "CA2" [])) ∧
      ((SessionRecord.mk "CA2" []).callSid ≠ "CA1" ∧
        SequelizeStore.get
            (SequelizeStore.set [] "CA1" (SessionRecord.mk "CA2" [])).2
            "CA1" ≠ some (SessionRecord.mk "CA2" [])) :=
  ⟨(set_ignores_key_argument [] "CA1" (SessionRecord.mk "CA2" [])).1,
    by decide,
    (set_ignores_key_argument [] "CA1" (SessionRecord.mk "CA2" [])).2
      (by decide)⟩

end TwilioIvr
